import Mathlib

set_option maxRecDepth 100000

/-!
Verification of the natural-language specification of `src/agent.py`
(a linear read → prompt-build → HTTP call → write pipeline) against a
shallow embedding of its code.

Modelling conventions:
* Python strings are `List Char` (`PyStr`); `str.strip()` is `pyStrip`,
  modelled over the ASCII whitespace characters space, tab, LF, CR, VT, FF
  (Python also strips some rarer Unicode whitespace; no claim depends on
  those).
* The filesystem and the environment are finite maps `PyStr → Option PyStr`.
* The network is a function from the issued HTTP request to an abstract
  outcome `HttpResult`: a transport-level failure (`urllib.error.URLError`),
  a non-2xx response (`urllib.error.HTTPError`, carrying status code and the
  error body read in the handler), or a 2xx response whose body is given as
  the result of `json.loads`: either a parsed `JValue` or a decode failure
  carrying the decoder's message (the stdlib JSON parser itself is not
  re-implemented; its output is the input of the model).
* Python exceptions are the inductive `PyExc`; the code under test raises
  only the listed constructors.  `str(exc)` is `py_message`.
-/

namespace Agent

/-- Python strings, modelled as lists of characters. -/
abbrev PyStr := List Char

/-- The whitespace predicate underlying Python `str.strip()`:
space, tab (9), LF (10), VT (11), FF (12), CR (13). -/
def isPySpace (c : Char) : Bool :=
  c == ' ' || c == Char.ofNat 9 || c == Char.ofNat 10 || c == Char.ofNat 11 ||
    c == Char.ofNat 12 || c == Char.ofNat 13

/-- Python `str.strip()`: remove leading and trailing whitespace. -/
def pyStrip (s : PyStr) : PyStr :=
  ((s.dropWhile isPySpace).reverse.dropWhile isPySpace).reverse

/-- Whether `n` is a leading segment of `l` (used to define substring search). -/
def startsWithL : PyStr → PyStr → Bool
  | _, [] => true
  | [], _ :: _ => false
  | a :: as, b :: bs => a == b && startsWithL as bs

/-- Python substring containment `n in l`. -/
def containsSubL (l n : PyStr) : Bool :=
  match l with
  | [] => startsWithL [] n
  | c :: t => startsWithL (c :: t) n || containsSubL t n

/-- Python `str.rstrip("/")`: remove all trailing slash characters
(`agent.py` line 76). -/
def rstrip_slashes (s : PyStr) : PyStr :=
  (s.reverse.dropWhile (fun c => c == '/')).reverse

/-- Values produced by `json.loads`: JSON null, booleans, numbers (kept as
rationals; the program performs no arithmetic on them), strings, arrays and
objects (Python dicts with string keys). -/
inductive JValue where
  | null : JValue
  | boolean (b : Bool) : JValue
  | num (q : ℚ) : JValue
  | str (s : PyStr) : JValue
  | arr (elems : List JValue) : JValue
  | obj (fields : List (PyStr × JValue)) : JValue

/-- Exceptions raised by `agent.py` (or by stdlib calls it makes).
The three `runtime…` constructors are the `RuntimeError`s raised in
`call_llm` (lines 91, 93, 98), kept apart by their distinct message shapes;
the spec names them `APIError`, `TransportError` and
`MalformedResponseError` respectively. -/
inductive PyExc where
  | fileNotFoundError (path : PyStr) : PyExc
  | valueError (path : PyStr) : PyExc
  | environmentError : PyExc
  | runtimeHTTP (code : Nat) (details : PyStr) : PyExc
  | runtimeTransport (reason : PyStr) : PyExc
  | runtimeMalformed (parsed : JValue) : PyExc
  | jsonDecodeError (msg : PyStr) : PyExc
  | typeError (msg : PyStr) : PyExc
  | osError (msg : PyStr) : PyExc

/-- The `LLMConfig` dataclass (`agent.py` lines 15-20), with its field
defaults. -/
structure LLMConfig where
  api_key : PyStr
  model : PyStr := ("gpt-4o-mini".data)
  base_url : PyStr := ("https://api.openai.com/v1".data)
  temperature : ℚ := 0.2

/-- `INPUT_FILE` (`agent.py` line 11). -/
def INPUT_FILE : PyStr := ("requirement_stories.txt".data)

/-- `OUTPUT_FILE` (`agent.py` line 12). -/
def OUTPUT_FILE : PyStr := ("generated_testcases.md".data)

/-- `read_requirements` (`agent.py` lines 23-33).  The filesystem is a map
from path to `Option` file content; `none` models a missing path.  The
function raises `FileNotFoundError` for a missing path, reads and strips the
text, raises `ValueError` when the stripped text is falsy (empty), and
otherwise returns the stripped text. -/
def read_requirements (fs : PyStr → Option PyStr) (file_path : PyStr) :
    Except PyExc PyStr :=
  match fs file_path with
  | none => Except.error (PyExc.fileNotFoundError file_path)
  | some raw =>
    let content := pyStrip raw
    if content = [] then Except.error (PyExc.valueError file_path)
    else Except.ok content

/-- The fixed text of the f-string template of `build_prompt`
(`agent.py` lines 37-58) between its leading newline and the interpolated
`user_stories`.  The full template is
`"\n" ++ promptFront ++ user_stories ++ "\n"`, then stripped. -/
def promptFront : String :=
  "You are a senior QA engineer.\nGenerate high-quality, practical software test cases from the user stories below.\n\nRequirements for output:\n- Output must be valid markdown.\n- Group test cases by user story.\n- For each test case provide:\n  - Test Case ID\n  - Title\n  - Preconditions\n  - Test Data\n  - Test Steps (numbered)\n  - Expected Result\n  - Priority (High/Medium/Low)\n  - Type (Positive/Negative/Edge)\n- Include both happy path and negative scenarios.\n- Include boundary/edge cases where applicable.\n- Keep wording clear and executable for manual testing.\n\nUser Stories:\n"

/-- `build_prompt` (`agent.py` lines 36-59): the f-string template with the
user stories interpolated, followed by `.strip()`. -/
def build_prompt (user_stories : PyStr) : PyStr :=
  pyStrip ((Char.ofNat 10 :: promptFront.data) ++ user_stories ++ [Char.ofNat 10])

/-- `promptFront` without its final newline (it ends in the colon of
`User Stories:`); every `build_prompt` output starts with this text, whatever
the input. -/
def frontCore : String :=
  "You are a senior QA engineer.\nGenerate high-quality, practical software test cases from the user stories below.\n\nRequirements for output:\n- Output must be valid markdown.\n- Group test cases by user story.\n- For each test case provide:\n  - Test Case ID\n  - Title\n  - Preconditions\n  - Test Data\n  - Test Steps (numbered)\n  - Expected Result\n  - Priority (High/Medium/Low)\n  - Type (Positive/Negative/Edge)\n- Include both happy path and negative scenarios.\n- Include boundary/edge cases where applicable.\n- Keep wording clear and executable for manual testing.\n\nUser Stories:"

/-- One chat message of the request payload. -/
structure Message where
  role : PyStr
  content : PyStr

/-- The JSON request payload built in `call_llm` (`agent.py` lines 63-73),
kept structured (`json.dumps` serialisation is not modelled; no claim
depends on the wire text). -/
structure Payload where
  model : PyStr
  messages : List Message
  temperature : ℚ

/-- The payload dict of `call_llm` (`agent.py` lines 63-73). -/
def build_payload (prompt : PyStr) (config : LLMConfig) : Payload :=
  { model := config.model,
    messages :=
      [ { role := ("system".data),
          content := ("You generate clear, complete software test cases.".data) },
        { role := ("user".data), content := prompt } ],
    temperature := config.temperature }

/-- The `urllib.request.Request` built in `call_llm` (`agent.py` lines
75-83): URL, payload, bearer token of the Authorization header, method.
(The Content-Type header and the 60-second timeout passed to `urlopen` are
constants not modelled; no claim depends on them.) -/
structure HttpRequest where
  url : PyStr
  payload : Payload
  auth_bearer : PyStr
  method : PyStr

/-- Request construction in `call_llm` (`agent.py` lines 75-83). -/
def build_request (prompt : PyStr) (config : LLMConfig) : HttpRequest :=
  { url := rstrip_slashes config.base_url ++ ("/chat/completions".data),
    payload := build_payload prompt config,
    auth_bearer := config.api_key,
    method := ("POST".data) }

/-- Outcome of `request.urlopen` plus reading and `json.loads`-ing the body
(`agent.py` lines 86-88): a non-2xx status raises `HTTPError` (carrying the
status code and the error body read on line 90), a transport failure raises
`URLError` (carrying a reason), and a 2xx response yields a body that either
decodes to a `JValue` or fails to decode (carrying the decoder's message). -/
inductive HttpResult where
  | httpError (code : Nat) (details : PyStr) : HttpResult
  | urlError (reason : PyStr) : HttpResult
  | success (body : Except PyStr JValue) : HttpResult

/-- Failure of one step of `parsed["choices"][0]["message"]["content"].strip()`
(`agent.py` line 96), by Python exception class.  `KeyError`, `IndexError`
and `AttributeError` are caught on line 97; `TypeError` is not. -/
inductive PathErr where
  | keyError : PathErr
  | indexError : PathErr
  | attrError : PathErr
  | typeErr (msg : PyStr) : PathErr

/-- Python subscription `v[key]` with a string key: dict lookup (missing key
raises `KeyError`); lists and strings reject string indices with
`TypeError`; other values are not subscriptable (`TypeError`). -/
def getStrKey (v : JValue) (key : PyStr) : Except PathErr JValue :=
  match v with
  | JValue.obj fields =>
    match fields.find? (fun kv => kv.1 == key) with
    | some kv => Except.ok kv.2
    | none => Except.error PathErr.keyError
  | JValue.arr _ =>
    Except.error (PathErr.typeErr ("list indices must be integers or slices, not str".data))
  | JValue.str _ =>
    Except.error (PathErr.typeErr ("string indices must be integers".data))
  | _ => Except.error (PathErr.typeErr ("object is not subscriptable".data))

/-- Python subscription `v[i]` with an integer index: list indexing
(out of range raises `IndexError`), string indexing (yields a one-character
string or `IndexError`), dict lookup of an integer key (JSON keys are
strings, so `KeyError`); other values raise `TypeError`. -/
def getIntIndex (v : JValue) (i : Nat) : Except PathErr JValue :=
  match v with
  | JValue.arr elems =>
    match elems.get? i with
    | some x => Except.ok x
    | none => Except.error PathErr.indexError
  | JValue.obj _ => Except.error PathErr.keyError
  | JValue.str s =>
    match s.get? i with
    | some c => Except.ok (JValue.str [c])
    | none => Except.error PathErr.indexError
  | _ => Except.error (PathErr.typeErr ("object is not subscriptable".data))

/-- The access path `parsed["choices"][0]["message"]["content"].strip()` of
`call_llm` (`agent.py` line 96), before the final strip; a non-string
`content` has no `.strip` method (`AttributeError`). -/
def extract_content (parsed : JValue) : Except PathErr PyStr := do
  let choices ← getStrKey parsed ("choices".data)
  let first ← getIntIndex choices 0
  let message ← getStrKey first ("message".data)
  let content ← getStrKey message ("content".data)
  match content with
  | JValue.str s => pure s
  | _ => Except.error PathErr.attrError

/-- `call_llm` (`agent.py` lines 62-98).  `net` is the network: the response
of the world to the single issued request.  `HTTPError` and `URLError` are
mapped to the two `RuntimeError`s of lines 91 and 93; a body that fails
`json.loads` propagates the decoder's error (a `ValueError` subclass, caught
by neither `except` clause on lines 89 and 92); a `KeyError`, `IndexError`
or `AttributeError` while extracting the content is mapped to the
`RuntimeError` of line 98 carrying the parsed body; a `TypeError` while
extracting propagates unwrapped; on success the stripped content string is
returned. -/
def call_llm (prompt : PyStr) (config : LLMConfig)
    (net : HttpRequest → HttpResult) : Except PyExc PyStr :=
  match net (build_request prompt config) with
  | HttpResult.httpError code details =>
    Except.error (PyExc.runtimeHTTP code details)
  | HttpResult.urlError reason =>
    Except.error (PyExc.runtimeTransport reason)
  | HttpResult.success (Except.error decode_msg) =>
    Except.error (PyExc.jsonDecodeError decode_msg)
  | HttpResult.success (Except.ok parsed) =>
    match extract_content parsed with
    | Except.ok content => Except.ok (pyStrip content)
    | Except.error PathErr.keyError => Except.error (PyExc.runtimeMalformed parsed)
    | Except.error PathErr.indexError => Except.error (PyExc.runtimeMalformed parsed)
    | Except.error PathErr.attrError => Except.error (PyExc.runtimeMalformed parsed)
    | Except.error (PathErr.typeErr m) => Except.error (PyExc.typeError m)

/-- `get_config_from_env` (`agent.py` lines 105-115).  The environment is a
map from variable name to `Option` value; `os.getenv` with a default is
`Option.getD`.  All three values are stripped; an empty (falsy) stripped
API key raises `EnvironmentError`; otherwise an `LLMConfig` is built from
the three values, `temperature` keeping its dataclass default. -/
def get_config_from_env (env : PyStr → Option PyStr) : Except PyExc LLMConfig :=
  let api_key := pyStrip ((env ("LLM_API_KEY".data)).getD [])
  let model := pyStrip ((env ("LLM_MODEL".data)).getD ("gpt-4o-mini".data))
  let base_url := pyStrip ((env ("LLM_BASE_URL".data)).getD ("https://api.openai.com/v1".data))
  if api_key = [] then Except.error PyExc.environmentError
  else Except.ok { api_key := api_key, model := model, base_url := base_url }

/-- The world a run interacts with: filesystem, environment, network, and
whether the output write succeeds (`write_error = some msg` models
`Path.write_text` raising an `OSError` whose stdlib-produced message is
`msg`). -/
structure World where
  fs : PyStr → Option PyStr
  env : PyStr → Option PyStr
  net : HttpRequest → HttpResult
  write_error : Option PyStr

/-- `write_output` (`agent.py` lines 101-102): overwrite (create if absent)
the target path with the content, or raise the world's `OSError`. -/
def write_output (content : PyStr) (file_path : PyStr) (w : World) :
    Except PyExc World :=
  match w.write_error with
  | some msg => Except.error (PyExc.osError msg)
  | none =>
    Except.ok { w with fs := fun p => if p = file_path then some content else w.fs p }

/-- Python `repr` of a decoded JSON number, as it appears inside the
f-string of `agent.py` line 98.  Integers render exactly; non-integral
numbers render as `num/den` (stdlib float repr is not modelled; no claim
inspects this text). -/
def reprRat (q : ℚ) : PyStr :=
  if q.den = 1 then (toString q.num).data
  else (toString q.num).data ++ ("/".data) ++ (toString q.den).data

mutual

/-- Python `repr` of a value decoded by `json.loads`, as interpolated into
the f-string of `agent.py` line 98: `None`/`True`/`False`, quoted strings,
bracketed lists, braced dicts. -/
def reprJV : JValue → PyStr
  | JValue.null => ("None".data)
  | JValue.boolean true => ("True".data)
  | JValue.boolean false => ("False".data)
  | JValue.num q => reprRat q
  | JValue.str s => Char.ofNat 39 :: s ++ [Char.ofNat 39]
  | JValue.arr elems => Char.ofNat 91 :: reprElems elems ++ [Char.ofNat 93]
  | JValue.obj fields => Char.ofNat 123 :: reprFields fields ++ [Char.ofNat 125]

/-- Comma-separated reprs of list elements. -/
def reprElems : List JValue → PyStr
  | [] => []
  | [v] => reprJV v
  | v :: w :: rest => reprJV v ++ (", ".data) ++ reprElems (w :: rest)

/-- Comma-separated `key: value` reprs of dict entries. -/
def reprFields : List (PyStr × JValue) → PyStr
  | [] => []
  | [(k, v)] => (Char.ofNat 39 :: k ++ [Char.ofNat 39]) ++ (": ".data) ++ reprJV v
  | (k, v) :: kv :: rest =>
    (Char.ofNat 39 :: k ++ [Char.ofNat 39]) ++ (": ".data) ++ reprJV v ++
      (", ".data) ++ reprFields (kv :: rest)

end

/-- Python `str(exc)` for each exception the program can print on
`agent.py` line 131, following the message built at each raise site. -/
def py_message : PyExc → PyStr
  | PyExc.fileNotFoundError path =>
    ("Could not find ".data) ++ path ++ (". Please create it and add user stories.".data)
  | PyExc.valueError path =>
    path ++ (" is empty. Add at least one user story.".data)
  | PyExc.environmentError =>
    ("LLM_API_KEY is not set. Configure it in your environment or PyCharm run configuration.".data)
  | PyExc.runtimeHTTP code details =>
    ("LLM API HTTP error ".data) ++ (toString code).data ++ (": ".data) ++ details
  | PyExc.runtimeTransport reason =>
    ("Could not reach LLM endpoint: ".data) ++ reason
  | PyExc.runtimeMalformed parsed =>
    ("Unexpected LLM response format: ".data) ++ reprJV parsed
  | PyExc.jsonDecodeError msg => msg
  | PyExc.typeError msg => msg
  | PyExc.osError msg => msg

/-- The line printed by `agent.py` line 131. -/
def errLine (e : PyExc) : PyStr := ("Error: ".data) ++ py_message e

/-- The line printed by `agent.py` line 124. -/
def callingMsg : PyStr := ("Calling LLM to generate test cases...".data)

/-- The line printed by `agent.py` line 128. -/
def doneMsg : PyStr := ("Done. Test cases written to: ".data) ++ OUTPUT_FILE

/-- The five pipeline stages of `main`, recorded in execution order; a
failing stage is recorded as the last entry of the trace. -/
inductive Stage where
  | requirementLoad : Stage
  | promptBuild : Stage
  | configLoad : Stage
  | llmCall : Stage
  | outputWrite : Stage
deriving DecidableEq

/-- Observable outcome of one run of `main`: the returned exit status, the
lines printed in order, the final filesystem, and the trace of stages
executed (attempted) in order. -/
structure RunResult where
  exit_code : Nat
  printed : List PyStr
  final_fs : PyStr → Option PyStr
  trace : List Stage

/-- `main` (`agent.py` lines 118-132): the stages in source order —
`read_requirements`, `build_prompt`, `get_config_from_env`, `call_llm`,
`write_output` — inside one `try` whose `except Exception` prints
`f"Error: {exc}"` and returns 1; success prints the confirmation and
returns 0. -/
def main (w : World) : RunResult :=
  match read_requirements w.fs INPUT_FILE with
  | Except.error e =>
    { exit_code := 1, printed := [errLine e], final_fs := w.fs,
      trace := [Stage.requirementLoad] }
  | Except.ok requirements_text =>
    let prompt := build_prompt requirements_text
    match get_config_from_env w.env with
    | Except.error e =>
      { exit_code := 1, printed := [errLine e], final_fs := w.fs,
        trace := [Stage.requirementLoad, Stage.promptBuild, Stage.configLoad] }
    | Except.ok config =>
      match call_llm prompt config w.net with
      | Except.error e =>
        { exit_code := 1, printed := [callingMsg, errLine e], final_fs := w.fs,
          trace := [Stage.requirementLoad, Stage.promptBuild, Stage.configLoad,
            Stage.llmCall] }
      | Except.ok generated =>
        match write_output generated OUTPUT_FILE w with
        | Except.error e =>
          { exit_code := 1, printed := [callingMsg, errLine e], final_fs := w.fs,
            trace := [Stage.requirementLoad, Stage.promptBuild, Stage.configLoad,
              Stage.llmCall, Stage.outputWrite] }
        | Except.ok w2 =>
          { exit_code := 0, printed := [callingMsg, doneMsg], final_fs := w2.fs,
            trace := [Stage.requirementLoad, Stage.promptBuild, Stage.configLoad,
              Stage.llmCall, Stage.outputWrite] }

/-- Whether some occurrence of `a` comes before some occurrence of `b` in
the trace (the order relation the temporal claim about `main` speaks of). -/
def precedesIn (a b : Stage) : List Stage → Bool
  | [] => false
  | s :: rest =>
    (decide (s = a) && rest.any (fun x => decide (x = b))) || precedesIn a b rest

/-- The response body `\x7b"choices":[\x7b"message":\x7b"content": c\x7d\x7d]\x7d`
named by the spec's success scenario, as the value `json.loads` yields. -/
def choices_body (content : PyStr) : JValue :=
  JValue.obj
    [ ( ("choices".data),
        JValue.arr
          [ JValue.obj
              [ ( ("message".data),
                  JValue.obj [(("content".data), JValue.str content)] ) ] ] ) ]

/-- The fixed required-fields list of the prompt template, as the spec
enumerates it. -/
def requiredFields : List PyStr :=
  [ ("ID".data), ("Title".data), ("Preconditions".data), ("Test Data".data),
    ("Test Steps".data), ("Expected Result".data), ("Priority".data), ("Type".data) ]

/-- A configuration with all dataclass defaults (witness input). -/
def cfg0 : LLMConfig := { api_key := ("k".data) }

/-- An environment defining only the API key (witness input). -/
def env0 : PyStr → Option PyStr :=
  fun k => if k = ("LLM_API_KEY".data) then some ("sk".data) else none

/-- The configuration `get_config_from_env env0` yields (witness value). -/
def cfg_env0 : LLMConfig := { api_key := ("sk".data) }

/-- A filesystem holding only the input file (witness input). -/
def fs0 : PyStr → Option PyStr :=
  fun p => if p = INPUT_FILE then some ("As a user, I want to log in.".data) else none

/-- A network that answers every request with a well-formed success body
(witness input). -/
def net0 : HttpRequest → HttpResult :=
  fun _ => HttpResult.success (Except.ok (choices_body ("ok".data)))

/-- A world in which every stage succeeds (witness input). -/
def w0 : World := { fs := fs0, env := env0, net := net0, write_error := none }

/-- A world whose input file is missing (witness input). -/
def w_missing : World :=
  { fs := fun _ => none, env := env0, net := net0, write_error := none }

/-!  Helper lemmas about `dropWhile`, `pyStrip` and `containsSubL`. -/

theorem dropWhile_head_false (p : Char → Bool) (l : PyStr) (c : Char) (t : PyStr)
    (h : l.dropWhile p = c :: t) : p c = false := by
  induction l with
  | nil => simp at h
  | cons a as ih =>
    rw [List.dropWhile_cons] at h
    by_cases hp : p a
    · rw [if_pos hp] at h
      exact ih h
    · rw [if_neg hp] at h
      injection h with h1 h2
      subst h1
      simpa using hp

theorem dropWhile_idem (p : Char → Bool) (l : PyStr) :
    (l.dropWhile p).dropWhile p = l.dropWhile p := by
  cases h : l.dropWhile p with
  | nil => simp
  | cons c t =>
    have hc : p c = false := dropWhile_head_false p l c t h
    simp [List.dropWhile_cons, hc]

theorem dropWhile_self_append (p : Char → Bool) (l r : PyStr)
    (hl : l.dropWhile p = l) (hne : l ≠ []) :
    (l ++ r).dropWhile p = l ++ r := by
  rw [List.dropWhile_append, hl]
  simp [hne]

theorem pyStrip_reverse_fixed (s : PyStr) (hs : pyStrip s = s) :
    s.reverse.dropWhile isPySpace = s.reverse := by
  have h1 : (s.dropWhile isPySpace).reverse.dropWhile isPySpace = s.reverse := by
    have h2 := congrArg List.reverse hs
    simpa [pyStrip] using h2
  calc s.reverse.dropWhile isPySpace
      = ((s.dropWhile isPySpace).reverse.dropWhile isPySpace).dropWhile isPySpace := by
        rw [h1]
    _ = (s.dropWhile isPySpace).reverse.dropWhile isPySpace := dropWhile_idem _ _
    _ = s.reverse := h1

/-- For a non-empty, already-stripped `s`, the final `.strip()` of the
template removes exactly the leading and the trailing newline of the
f-string, so `build_prompt s` is the fixed front text followed by `s`. -/
theorem build_prompt_eq (s : PyStr) (hs : pyStrip s = s) (hne : s ≠ []) :
    build_prompt s = promptFront.data ++ s := by
  have hF : (promptFront.data).dropWhile isPySpace = promptFront.data := by decide
  have hFne : promptFront.data ≠ [] := by decide
  have hsr : s.reverse.dropWhile isPySpace = s.reverse := pyStrip_reverse_fixed s hs
  have hsrne : s.reverse ≠ [] := by simpa using hne
  unfold build_prompt pyStrip
  rw [List.append_assoc, List.cons_append,
    List.dropWhile_cons_of_pos (by decide : isPySpace (Char.ofNat 10) = true),
    dropWhile_self_append isPySpace promptFront.data _ hF hFne]
  simp only [List.reverse_append, List.reverse_cons, List.reverse_nil,
    List.nil_append, List.singleton_append, List.append_assoc, List.cons_append]
  rw [List.dropWhile_cons_of_pos (by decide : isPySpace (Char.ofNat 10) = true),
    dropWhile_self_append isPySpace s.reverse _ hsr hsrne]
  simp [List.reverse_append, List.reverse_reverse]

/-- Whatever the input, the output of `build_prompt` starts with the fixed
text `frontCore`: the final `.strip()` can reach at most the template's last
newline and the interpolated input, never the front text, whose last
character is a colon. -/
theorem build_prompt_front (s : PyStr) :
    ∃ t, build_prompt s = frontCore.data ++ t := by
  have hPF : promptFront.data = frontCore.data ++ [Char.ofNat 10] := by decide
  have hfc : (frontCore.data).dropWhile isPySpace = frontCore.data := by decide
  have hfcne : frontCore.data ≠ [] := by decide
  have hfcrev : ((frontCore.data).reverse).dropWhile isPySpace
      = (frontCore.data).reverse := by decide
  unfold build_prompt pyStrip
  rw [hPF]
  have hsplit : ((Char.ofNat 10 :: (frontCore.data ++ [Char.ofNat 10])) ++ s ++ [Char.ofNat 10])
      = Char.ofNat 10 :: (frontCore.data ++ ((Char.ofNat 10 :: s) ++ [Char.ofNat 10])) := by
    simp [List.append_assoc]
  rw [hsplit,
    List.dropWhile_cons_of_pos (by decide : isPySpace (Char.ofNat 10) = true),
    dropWhile_self_append isPySpace frontCore.data _ hfc hfcne,
    List.reverse_append, List.dropWhile_append]
  by_cases hu : (List.dropWhile isPySpace ((Char.ofNat 10 :: s) ++ [Char.ofNat 10]).reverse).isEmpty
  · rw [if_pos hu, hfcrev]
    exact ⟨[], by simp⟩
  · rw [if_neg hu]
    exact ⟨(List.dropWhile isPySpace ((Char.ofNat 10 :: s) ++ [Char.ofNat 10]).reverse).reverse,
      by simp⟩

theorem startsWithL_refl_append (n rest : PyStr) : startsWithL (n ++ rest) n = true := by
  induction n with
  | nil => cases rest <;> simp [startsWithL]
  | cons a as ih => simp [startsWithL, ih]

theorem startsWithL_append_right (l r n : PyStr) (h : startsWithL l n = true) :
    startsWithL (l ++ r) n = true := by
  induction n generalizing l with
  | nil => cases l <;> cases r <;> simp [startsWithL]
  | cons b bs ih =>
    cases l with
    | nil => simp [startsWithL] at h
    | cons a as =>
      simp only [startsWithL, Bool.and_eq_true, beq_iff_eq] at h
      simp only [List.cons_append, startsWithL, Bool.and_eq_true, beq_iff_eq]
      exact ⟨h.1, ih as h.2⟩

theorem containsSubL_nil_right (l : PyStr) : containsSubL l [] = true := by
  cases l <;> simp [containsSubL, startsWithL]

theorem containsSubL_of_starts (l n : PyStr) (h : startsWithL l n = true) :
    containsSubL l n = true := by
  cases l with
  | nil => simpa [containsSubL] using h
  | cons c t => simp [containsSubL, h]

theorem containsSubL_cons (c : Char) (t n : PyStr) (h : containsSubL t n = true) :
    containsSubL (c :: t) n = true := by
  simp [containsSubL, h]

theorem containsSubL_append_left (l r n : PyStr) (h : containsSubL r n = true) :
    containsSubL (l ++ r) n = true := by
  induction l with
  | nil => simpa
  | cons a as ih => simpa using containsSubL_cons a (as ++ r) n ih

theorem containsSubL_self_suffix (l n : PyStr) : containsSubL (l ++ n) n = true :=
  containsSubL_append_left l n n
    (containsSubL_of_starts n n (by simpa using startsWithL_refl_append n []))

theorem containsSubL_append_right (l r n : PyStr) (h : containsSubL l n = true) :
    containsSubL (l ++ r) n = true := by
  induction l with
  | nil =>
    have hn : n = [] := by
      cases n with
      | nil => rfl
      | cons b bs => simp [containsSubL, startsWithL] at h
    subst hn
    exact containsSubL_nil_right _
  | cons a as ih =>
    simp only [containsSubL, Bool.or_eq_true] at h
    rcases h with h | h
    · exact containsSubL_of_starts _ _
        (by simpa using startsWithL_append_right (a :: as) r n h)
    · simpa using containsSubL_cons a (as ++ r) n (ih h)

theorem rstrip_slashes_append_replicate (b : PyStr) (n : Nat) :
    rstrip_slashes (b ++ List.replicate n '/') = rstrip_slashes b := by
  unfold rstrip_slashes
  rw [List.reverse_append, List.reverse_replicate]
  congr 1
  apply List.dropWhile_append_of_pos
  intro a ha
  have h := List.eq_of_mem_replicate ha
  simp [h]

/-- C4 (amended): the output of `build_prompt` always contains every entry
of the fixed required-fields list, and for every input that is non-empty
and equal to its own strip — as the Requirement Loader guarantees for the
string it passes — the output contains the verbatim input as a substring;
`build_prompt` is a total pure function (its Lean embedding is a plain
function), so it is deterministic with no failure modes. -/
theorem c4_prompt_contains (s : PyStr) :
    (pyStrip s = s → s ≠ [] → containsSubL (build_prompt s) s = true) ∧
      ∀ f ∈ requiredFields, containsSubL (build_prompt s) f = true := by
  constructor
  · intro hs hne
    rw [build_prompt_eq s hs hne]
    exact containsSubL_self_suffix _ s
  · intro f hf
    obtain ⟨t, ht⟩ := build_prompt_front s
    rw [ht]
    have hF : containsSubL frontCore.data f = true := by
      fin_cases hf <;> decide
    exact containsSubL_append_right _ t f hF

/-- C4 witness: the theorem applied to the concrete input `"hello"`,
discharging both hypotheses there, plus a field-containment instance. -/
theorem c4_witness :
    pyStrip ("hello".data) = ("hello".data) ∧ ("hello".data) ≠ ([] : PyStr) ∧
      containsSubL (build_prompt ("hello".data)) ("hello".data) = true ∧
      containsSubL (build_prompt ("hello".data)) ("Preconditions".data) = true :=
  ⟨by decide, by decide,
    (c4_prompt_contains ("hello".data)).1 (by decide) (by decide),
    (c4_prompt_contains ("hello".data)).2 ("Preconditions".data) (by simp [requiredFields])⟩

/-- C4 counterexample: the claim as stated fails for the non-empty input
`"xyzzy "` — the template's final `.strip()` removes the input's trailing
space, so the verbatim input is not a substring of the output. -/
theorem c4_counterexample :
    ("xyzzy ".data) ≠ ([] : PyStr) ∧
      containsSubL (build_prompt ("xyzzy ".data)) ("xyzzy ".data) = false := by
  exact ⟨by decide, by decide⟩

/-- C2: the Requirement Loader fails with `FileNotFoundError` (the spec's
`NotFoundError`) when the path does not exist, fails with `ValueError` (the
spec's `EmptyInputError`) when the file exists but its content strips to
empty, and on success returns exactly the stripped file content; the
embedding is a pure function of the filesystem, with no effect on it. -/
theorem c2_requirement_loader (fs : PyStr → Option PyStr) (file_path : PyStr) :
    (fs file_path = none →
      read_requirements fs file_path
        = Except.error (PyExc.fileNotFoundError file_path)) ∧
    (∀ txt, fs file_path = some txt → pyStrip txt = [] →
      read_requirements fs file_path = Except.error (PyExc.valueError file_path)) ∧
    (∀ txt, fs file_path = some txt → pyStrip txt ≠ [] →
      read_requirements fs file_path = Except.ok (pyStrip txt)) := by
  refine ⟨?_, ?_, ?_⟩
  · intro h
    simp [read_requirements, h]
  · intro txt h hstrip
    simp [read_requirements, h, hstrip]
  · intro txt h hstrip
    simp [read_requirements, h, hstrip]

/-- C2 witness: the three contract cases at concrete inputs — a missing
file, a whitespace-only file, and a file whose content strips to
`"hi"`. -/
theorem c2_witness :
    read_requirements (fun _ => none) INPUT_FILE
        = Except.error (PyExc.fileNotFoundError INPUT_FILE) ∧
      read_requirements (fun _ => some ("   ".data)) INPUT_FILE
        = Except.error (PyExc.valueError INPUT_FILE) ∧
      read_requirements (fun _ => some (" hi ".data)) INPUT_FILE
        = Except.ok ("hi".data) :=
  ⟨(c2_requirement_loader (fun _ => none) INPUT_FILE).1 rfl,
   (c2_requirement_loader (fun _ => some ("   ".data)) INPUT_FILE).2.1 _ rfl (by decide),
   ((c2_requirement_loader (fun _ => some (" hi ".data)) INPUT_FILE).2.2 _ rfl
      (by decide)).trans (congrArg Except.ok (by decide))⟩

/-- C3: configuration loading fails (with `EnvironmentError`, the spec's
`ConfigurationError`) exactly when `LLM_API_KEY` is unset or strips to
empty — the condition mentions no other variable — and a returned
configuration carries the stripped key, with `model` defaulting to
`gpt-4o-mini` when `LLM_MODEL` is unset and `base_url` defaulting to the
OpenAI endpoint when `LLM_BASE_URL` is unset. -/
theorem c3_config_loader (env : PyStr → Option PyStr) :
    (get_config_from_env env = Except.error PyExc.environmentError ↔
      pyStrip ((env ("LLM_API_KEY".data)).getD []) = []) ∧
    (∀ cfg, get_config_from_env env = Except.ok cfg →
      cfg.api_key = pyStrip ((env ("LLM_API_KEY".data)).getD []) ∧
      (env ("LLM_MODEL".data) = none → cfg.model = ("gpt-4o-mini".data)) ∧
      (env ("LLM_BASE_URL".data) = none →
        cfg.base_url = ("https://api.openai.com/v1".data))) := by
  constructor
  · by_cases h : pyStrip ((env ("LLM_API_KEY".data)).getD []) = [] <;>
      simp [get_config_from_env, h]
  · intro cfg hcfg
    by_cases h : pyStrip ((env ("LLM_API_KEY".data)).getD []) = []
    · simp [get_config_from_env, h] at hcfg
    · simp only [get_config_from_env, h, if_false, Except.ok.injEq] at hcfg
      obtain rfl := hcfg
      refine ⟨rfl, ?_, ?_⟩
      · intro hm
        show pyStrip ((env ("LLM_MODEL".data)).getD ("gpt-4o-mini".data)) = _
        rw [hm]
        decide
      · intro hb
        show pyStrip ((env ("LLM_BASE_URL".data)).getD ("https://api.openai.com/v1".data)) = _
        rw [hb]
        decide

/-- C3 witness: with an empty environment loading fails; with only the API
key set, the returned configuration is `cfg_env0`, whose model is the
default. -/
theorem c3_witness :
    get_config_from_env (fun _ => none) = Except.error PyExc.environmentError ∧
      cfg_env0.model = ("gpt-4o-mini".data) :=
  ⟨(c3_config_loader (fun _ => none)).1.mpr (by decide),
   ((c3_config_loader env0).2 cfg_env0 rfl).2.1 rfl⟩

/-- C5: on a 2xx response whose body decodes to
`choices[0].message.content = c`, `call_llm` returns exactly the stripped
content string. -/
theorem c5_success (prompt : PyStr) (config : LLMConfig) (content : PyStr) :
    call_llm prompt config
        (fun _ => HttpResult.success (Except.ok (choices_body content)))
      = Except.ok (pyStrip content) := rfl

/-- C9: the URL of the issued request is the configured `base_url` with all
trailing slash characters removed, followed by `/chat/completions`; hence
appending any number of trailing slashes to the base URL leaves the request
URL unchanged. -/
theorem c9_request_url (prompt : PyStr) (config : LLMConfig) (n : Nat) :
    (build_request prompt config).url
        = rstrip_slashes config.base_url ++ ("/chat/completions".data) ∧
      (build_request prompt
          { config with base_url := config.base_url ++ List.replicate n '/' }).url
        = (build_request prompt config).url := by
  constructor
  · rfl
  · simp only [build_request]
    rw [rstrip_slashes_append_replicate]

/-- C10: every configuration the loader returns has temperature exactly
`0.2` (the dataclass default; the loader reads no temperature variable —
its result depends only on the three named variables), and the payload of
every request built from such a configuration carries temperature `0.2`. -/
theorem c10_temperature :
    (∀ env cfg, get_config_from_env env = Except.ok cfg →
      cfg.temperature = (0.2 : ℚ) ∧
        ∀ prompt, (build_request prompt cfg).payload.temperature = (0.2 : ℚ)) ∧
    (∀ env1 env2 : PyStr → Option PyStr,
      env1 ("LLM_API_KEY".data) = env2 ("LLM_API_KEY".data) →
      env1 ("LLM_MODEL".data) = env2 ("LLM_MODEL".data) →
      env1 ("LLM_BASE_URL".data) = env2 ("LLM_BASE_URL".data) →
      get_config_from_env env1 = get_config_from_env env2) := by
  constructor
  · intro env cfg hcfg
    by_cases h : pyStrip ((env ("LLM_API_KEY".data)).getD []) = []
    · simp [get_config_from_env, h] at hcfg
    · simp only [get_config_from_env, h, if_false, Except.ok.injEq] at hcfg
      obtain rfl := hcfg
      exact ⟨rfl, fun _ => rfl⟩
  · intro env1 env2 h1 h2 h3
    unfold get_config_from_env
    rw [h1, h2, h3]

/-- C10 witness: the theorem applied to `env0` and to the pointwise-equal
copy of `env0`. -/
theorem c10_witness :
    cfg_env0.temperature = (0.2 : ℚ) ∧
      get_config_from_env (fun k => env0 k) = get_config_from_env env0 :=
  ⟨(c10_temperature.1 env0 cfg_env0 rfl).1,
   c10_temperature.2 (fun k => env0 k) env0 rfl rfl rfl⟩

/-- C1 (amended): `call_llm` maps a transport failure (`URLError`) to the
`RuntimeError` carrying the underlying reason, a non-2xx response
(`HTTPError`) to the `RuntimeError` carrying the status code and the raw
error body, and a path failure of `choices[0].message.content` that is a
`KeyError`, `IndexError` or `AttributeError` to the `RuntimeError` carrying
the parsed body.  A body that is not valid JSON propagates the JSON
decoder's own error unwrapped (a `ValueError`, caught by neither `except`
clause), and a path step applied to a value of the wrong type propagates a
`TypeError` unwrapped. -/
theorem c1_error_mapping (prompt : PyStr) (config : LLMConfig) :
    (∀ reason, call_llm prompt config (fun _ => HttpResult.urlError reason)
        = Except.error (PyExc.runtimeTransport reason)) ∧
    (∀ code details,
      call_llm prompt config (fun _ => HttpResult.httpError code details)
        = Except.error (PyExc.runtimeHTTP code details)) ∧
    (∀ msg, call_llm prompt config (fun _ => HttpResult.success (Except.error msg))
        = Except.error (PyExc.jsonDecodeError msg)) ∧
    (∀ parsed, (extract_content parsed = Except.error PathErr.keyError ∨
         extract_content parsed = Except.error PathErr.indexError ∨
         extract_content parsed = Except.error PathErr.attrError) →
      call_llm prompt config (fun _ => HttpResult.success (Except.ok parsed))
        = Except.error (PyExc.runtimeMalformed parsed)) ∧
    (∀ parsed m, extract_content parsed = Except.error (PathErr.typeErr m) →
      call_llm prompt config (fun _ => HttpResult.success (Except.ok parsed))
        = Except.error (PyExc.typeError m)) := by
  refine ⟨fun reason => rfl, fun code details => rfl, fun msg => rfl, ?_, ?_⟩
  · intro parsed h
    rcases h with h | h | h <;> simp [call_llm, h]
  · intro parsed m h
    simp [call_llm, h]

/-- C1 witness: a parsed body `\x7b\x7d` (missing `choices`) raises the
malformed-response `RuntimeError` carrying the parsed body. -/
theorem c1_witness :
    call_llm [] cfg0 (fun _ => HttpResult.success (Except.ok (JValue.obj [])))
      = Except.error (PyExc.runtimeMalformed (JValue.obj [])) :=
  (c1_error_mapping [] cfg0).2.2.2.1 (JValue.obj []) (Or.inl rfl)

/-- C1 counterexample: on a 2xx response whose body is not valid JSON,
`call_llm` raises the JSON decoder's error, not the malformed-response
error the claim states — for no parsed body is the result the
`RuntimeError` of `agent.py` line 98. -/
theorem c1_counterexample :
    call_llm [] cfg0
        (fun _ => HttpResult.success (Except.error ("Expecting value".data)))
      = Except.error (PyExc.jsonDecodeError ("Expecting value".data)) ∧
      ∀ parsed : JValue,
        call_llm [] cfg0
            (fun _ => HttpResult.success (Except.error ("Expecting value".data)))
          ≠ Except.error (PyExc.runtimeMalformed parsed) := by
  refine ⟨rfl, ?_⟩
  intro parsed h
  have h2 : (Except.error (PyExc.jsonDecodeError ("Expecting value".data))
        : Except PyExc PyStr)
      = Except.error (PyExc.runtimeMalformed parsed) := h
  simp at h2

/-- C7 (amended): in every run the stages execute in the source order
Requirement Loader, Prompt Builder, Configuration Loader, LLM Client,
Output Writer — the trace of every run is one of the four prefixes of that
sequence at which a stage can fail (prompt building cannot fail). -/
theorem c7_stage_order (w : World) :
    (main w).trace = [Stage.requirementLoad] ∨
    (main w).trace = [Stage.requirementLoad, Stage.promptBuild, Stage.configLoad] ∨
    (main w).trace
        = [Stage.requirementLoad, Stage.promptBuild, Stage.configLoad, Stage.llmCall] ∨
    (main w).trace
        = [Stage.requirementLoad, Stage.promptBuild, Stage.configLoad, Stage.llmCall,
            Stage.outputWrite] := by
  cases hr : read_requirements w.fs INPUT_FILE with
  | error e => simp [main, hr]
  | ok r =>
    cases hc : get_config_from_env w.env with
    | error e => simp [main, hr, hc]
    | ok config =>
      cases hl : call_llm (build_prompt r) config w.net with
      | error e => simp [main, hr, hc, hl]
      | ok g =>
        cases hw : write_output g OUTPUT_FILE w with
        | error e => simp [main, hr, hc, hl, hw]
        | ok w2 => simp [main, hr, hc, hl, hw]

/-- C7 counterexample: in a fully successful run the prompt is built, yet
configuration loading does not precede prompt building — the code loads the
configuration only after `build_prompt`, contradicting the claim that both
loaders complete before prompt building begins. -/
theorem c7_counterexample :
    Stage.promptBuild ∈ (main w0).trace ∧
      precedesIn Stage.configLoad Stage.promptBuild (main w0).trace = false := by
  decide

/-- C6: `main` catches every stage exception: it returns 0 exactly when all
stages succeed, printing the confirmation line, and returns 1 on any stage
exception, the last printed line being `Error: ` followed by the
exception's message; no other exit status is possible. -/
theorem c6_entry_point (w : World) :
    ((main w).exit_code = 0 ∨ (main w).exit_code = 1) ∧
    ((main w).exit_code = 0 ↔
      ∃ r cfg g, read_requirements w.fs INPUT_FILE = Except.ok r ∧
        get_config_from_env w.env = Except.ok cfg ∧
        call_llm (build_prompt r) cfg w.net = Except.ok g ∧
        w.write_error = none) ∧
    ((main w).exit_code = 0 → (main w).printed = [callingMsg, doneMsg]) ∧
    ((main w).exit_code = 1 →
      ∃ e : PyExc, (main w).printed.getLast? = some (errLine e)) := by
  cases hr : read_requirements w.fs INPUT_FILE with
  | error e =>
    refine ⟨Or.inr (by simp [main, hr]), ⟨?_, ?_⟩, ?_, ?_⟩
    · intro h0
      simp [main, hr] at h0
    · rintro ⟨r, cfg, g, h1, -, -, -⟩
      exact absurd h1 (by simp)
    · intro h0
      simp [main, hr] at h0
    · intro _
      exact ⟨e, by simp [main, hr]⟩
  | ok r =>
    cases hc : get_config_from_env w.env with
    | error e =>
      refine ⟨Or.inr (by simp [main, hr, hc]), ⟨?_, ?_⟩, ?_, ?_⟩
      · intro h0
        simp [main, hr, hc] at h0
      · rintro ⟨r2, cfg, g, h1, h2, -, -⟩
        exact absurd h2 (by simp)
      · intro h0
        simp [main, hr, hc] at h0
      · intro _
        exact ⟨e, by simp [main, hr, hc]⟩
    | ok config =>
      cases hl : call_llm (build_prompt r) config w.net with
      | error e =>
        refine ⟨Or.inr (by simp [main, hr, hc, hl]), ⟨?_, ?_⟩, ?_, ?_⟩
        · intro h0
          simp [main, hr, hc, hl] at h0
        · rintro ⟨r2, cfg2, g, h1, h2, h3, -⟩
          injection h1 with h1
          subst h1
          injection h2 with h2
          subst h2
          rw [hl] at h3
          exact absurd h3 (by simp)
        · intro h0
          simp [main, hr, hc, hl] at h0
        · intro _
          exact ⟨e, by simp [main, hr, hc, hl]⟩
      | ok g =>
        cases hw : write_output g OUTPUT_FILE w with
        | error e =>
          have hwe : w.write_error ≠ none := by
            intro hn
            simp [write_output, hn] at hw
          refine ⟨Or.inr (by simp [main, hr, hc, hl, hw]), ⟨?_, ?_⟩, ?_, ?_⟩
          · intro h0
            simp [main, hr, hc, hl, hw] at h0
          · rintro ⟨r2, cfg2, g2, -, -, -, h4⟩
            exact absurd h4 hwe
          · intro h0
            simp [main, hr, hc, hl, hw] at h0
          · intro _
            exact ⟨e, by simp [main, hr, hc, hl, hw]⟩
        | ok w2 =>
          have hwe : w.write_error = none := by
            cases hn : w.write_error with
            | none => rfl
            | some m => simp [write_output, hn] at hw
          refine ⟨Or.inl (by simp [main, hr, hc, hl, hw]), ⟨?_, ?_⟩, ?_, ?_⟩
          · intro _
            exact ⟨r, config, g, rfl, rfl, hl, hwe⟩
          · intro _
            simp [main, hr, hc, hl, hw]
          · intro _
            simp [main, hr, hc, hl, hw]
          · intro h0
            simp [main, hr, hc, hl, hw] at h0

/-- C6 witness: in the all-success world `w0` the exit status is 0, and in
the missing-input world `w_missing` it is 1. -/
theorem c6_witness :
    (main w0).exit_code = 0 ∧ (main w_missing).exit_code = 1 := by
  constructor
  · exact (c6_entry_point w0).2.1.mpr
      ⟨("As a user, I want to log in.".data), cfg_env0, ("ok".data), rfl, rfl,
        rfl, rfl⟩
  · rcases (c6_entry_point w_missing).1 with h | h
    · exfalso
      rcases (c6_entry_point w_missing).2.1.mp h with ⟨r, cfg, g, h1, -, -, -⟩
      simp [read_requirements, w_missing] at h1
    · exact h

/-- C8: whenever the LLM call or any earlier stage fails, the Output Writer
never runs — the whole filesystem (in particular the output file) is left
unchanged, the output-write stage is absent from the trace, and the process
exits with status 1. -/
theorem c8_no_write_on_failure (w : World)
    (h : ¬ ∃ r cfg g, read_requirements w.fs INPUT_FILE = Except.ok r ∧
        get_config_from_env w.env = Except.ok cfg ∧
        call_llm (build_prompt r) cfg w.net = Except.ok g) :
    (main w).final_fs = w.fs ∧ (main w).exit_code = 1 ∧
      Stage.outputWrite ∉ (main w).trace := by
  cases hr : read_requirements w.fs INPUT_FILE with
  | error e =>
    exact ⟨by simp [main, hr], by simp [main, hr], by simp [main, hr]⟩
  | ok r =>
    cases hc : get_config_from_env w.env with
    | error e =>
      exact ⟨by simp [main, hr, hc], by simp [main, hr, hc], by simp [main, hr, hc]⟩
    | ok config =>
      cases hl : call_llm (build_prompt r) config w.net with
      | error e =>
        exact ⟨by simp [main, hr, hc, hl], by simp [main, hr, hc, hl],
          by simp [main, hr, hc, hl]⟩
      | ok g =>
        exact absurd ⟨r, config, g, hr, hc, hl⟩ h

/-- C8 witness: with the input file missing, the run leaves the filesystem
untouched, never reaches the Output Writer, and exits 1. -/
theorem c8_witness :
    (main w_missing).final_fs = w_missing.fs ∧ (main w_missing).exit_code = 1 ∧
      Stage.outputWrite ∉ (main w_missing).trace :=
  c8_no_write_on_failure w_missing (by
    rintro ⟨r, cfg, g, h1, -, -⟩
    simp [read_requirements, w_missing] at h1)

end Agent
